import Mathlib

/-!
Shallow embedding of `rs-posix-resources` (src/src/lib.rs), a typed wrapper
around the POSIX `getrlimit`/`setrlimit` facility, together with proofs about
its value conversions, resource-kind mapping and error handling.

The crate compiles only against glibc on Linux (it uses
`libc::__rlimit_resource_t`), so the platform constants below are the
linux-gnu values of the `libc` crate.  Machine integers (`rlim_t = u64`,
`c_int`) are modelled as `Nat` / `Int`; no arithmetic is performed on them by
the source, only equality comparisons, so no wrap-around modelling is needed.
A Rust `panic!` is modelled as the `fatal` outcome, distinct from `Ok`/`Err`.
-/

namespace PosixResources

/-- Value of `libc::RLIM_INFINITY` on linux-gnu: `!0` as `rlim_t = u64`. -/
def RLIM_INFINITY : Nat := 2 ^ 64 - 1

/-- Value of `libc::RLIM_SAVED_MAX` on linux-gnu: defined equal to `RLIM_INFINITY`. -/
def RLIM_SAVED_MAX : Nat := RLIM_INFINITY

/-- Value of `libc::RLIM_SAVED_CUR` on linux-gnu: defined equal to `RLIM_INFINITY`. -/
def RLIM_SAVED_CUR : Nat := RLIM_INFINITY

/-- Value of `libc::EPERM` on Linux. -/
def EPERM : Int := 1

/-- Value of `libc::EINVAL` on Linux. -/
def EINVAL : Int := 22

/-- Rust `pub enum ResourceLimit` (src/src/lib.rs lines 4-8): one side of a limit. -/
inductive ResourceLimit where
  | resourceLimitInfinity
  | resourceLimitUnknown
  | resourceLimit (n : Nat)
deriving DecidableEq

/-- Rust `pub struct ResourceLimits` (lines 11-14): the (soft, hard) pair. -/
structure ResourceLimits where
  soft_limit : ResourceLimit
  hard_limit : ResourceLimit
deriving DecidableEq

/-- Raw `libc::rlimit`: the raw OS record of two `rlim_t = u64` fields. -/
structure rlimit where
  rlim_cur : Nat
  rlim_max : Nat
deriving DecidableEq

/-- The per-field body of `impl From<libc::rlimit> for ResourceLimits`
(lines 18-31 and 32-45; both fields run the identical match), with the three
`libc` sentinel constants as explicit parameters so that platform-independent
statements can be made.  The Rust `match` on the constant `RLIM_INFINITY`
followed by the `other => if ...` chain is exactly this if-chain. -/
def limitFromRaw (inf smax scur raw : Nat) : ResourceLimit :=
  if raw = inf then
    ResourceLimit.resourceLimitInfinity
  else if smax ≠ inf ∧ raw = smax then
    ResourceLimit.resourceLimitUnknown
  else if scur ≠ inf ∧ raw = scur then
    ResourceLimit.resourceLimitUnknown
  else
    ResourceLimit.resourceLimit raw

/-- Translation of `impl From<libc::rlimit> for ResourceLimits` (lines 16-51): apply the
sentinel decision chain to each field with the actual platform constants. -/
def resourceLimitsFrom (rs : rlimit) : ResourceLimits :=
  { soft_limit := limitFromRaw RLIM_INFINITY RLIM_SAVED_MAX RLIM_SAVED_CUR rs.rlim_cur
    hard_limit := limitFromRaw RLIM_INFINITY RLIM_SAVED_MAX RLIM_SAVED_CUR rs.rlim_max }

/-- The per-field body of `impl Into<libc::rlimit> for ResourceLimits`
(lines 55-59 and 60-64), with the unbounded sentinel and the side's unknown
sentinel as parameters: the soft field uses `RLIM_SAVED_CUR` for Unknown, the
hard field uses `RLIM_SAVED_MAX`. -/
def limitToRaw (inf unknownSentinel : Nat) : ResourceLimit → Nat
  | ResourceLimit.resourceLimitInfinity => inf
  | ResourceLimit.resourceLimitUnknown => unknownSentinel
  | ResourceLimit.resourceLimit n => n

/-- Translation of `impl Into<libc::rlimit> for ResourceLimits` (lines 53-67). -/
def resourceLimitsInto (r : ResourceLimits) : rlimit :=
  { rlim_cur := limitToRaw RLIM_INFINITY RLIM_SAVED_CUR r.soft_limit
    rlim_max := limitToRaw RLIM_INFINITY RLIM_SAVED_MAX r.hard_limit }

/-- Modelled from the spec (section 4.2): the `from_raw` decision order as the
spec words it: (1) unbounded sentinel → Unbounded; (2) saved-maximum sentinel,
when distinct from the unbounded sentinel → Unknown; (3) saved-current
sentinel, when distinct → Unknown; (4) otherwise Concrete(raw).  Used only to
be compared against `limitFromRaw`, which is translated from the source. -/
def limitFromRawSpec (inf smax scur raw : Nat) : ResourceLimit :=
  if raw = inf then
    ResourceLimit.resourceLimitInfinity
  else if raw = smax ∧ smax ≠ inf then
    ResourceLimit.resourceLimitUnknown
  else if raw = scur ∧ scur ≠ inf then
    ResourceLimit.resourceLimitUnknown
  else
    ResourceLimit.resourceLimit raw

/-- Modelled from the spec (section 4.2, reverse direction), soft side:
Unbounded → unbounded sentinel, Unknown → saved-current sentinel,
Concrete(n) → n. -/
def limitToRawSpecSoft : ResourceLimit → Nat
  | ResourceLimit.resourceLimitInfinity => RLIM_INFINITY
  | ResourceLimit.resourceLimitUnknown => RLIM_SAVED_CUR
  | ResourceLimit.resourceLimit n => n

/-- Modelled from the spec (section 4.2, reverse direction), hard side:
Unbounded → unbounded sentinel, Unknown → saved-maximum sentinel,
Concrete(n) → n. -/
def limitToRawSpecHard : ResourceLimit → Nat
  | ResourceLimit.resourceLimitInfinity => RLIM_INFINITY
  | ResourceLimit.resourceLimitUnknown => RLIM_SAVED_MAX
  | ResourceLimit.resourceLimit n => n

/-- Rust `pub enum Resource` (lines 69-77): the closed resource-kind set.  Note the
source attaches no `#[derive(...)]` attribute to this enum. -/
inductive Resource where
  | resourceCoreFileSize
  | resourceCPUTime
  | resourceDataSize
  | resourceFileSize
  | resourceOpenFiles
  | resourceStackSize
  | resourceTotalMemory
deriving DecidableEq

/-- Value of `libc::RLIMIT_CORE` on linux-gnu. -/
def RLIMIT_CORE : Nat := 4

/-- Value of `libc::RLIMIT_CPU` on linux-gnu. -/
def RLIMIT_CPU : Nat := 0

/-- Value of `libc::RLIMIT_DATA` on linux-gnu. -/
def RLIMIT_DATA : Nat := 2

/-- Value of `libc::RLIMIT_FSIZE` on linux-gnu. -/
def RLIMIT_FSIZE : Nat := 1

/-- Value of `libc::RLIMIT_NOFILE` on linux-gnu. -/
def RLIMIT_NOFILE : Nat := 7

/-- Value of `libc::RLIMIT_STACK` on linux-gnu. -/
def RLIMIT_STACK : Nat := 3

/-- Value of `libc::RLIMIT_AS` on linux-gnu. -/
def RLIMIT_AS : Nat := 9

/-- Translation of `impl Into<libc::__rlimit_resource_t> for Resource` (lines 79-91). -/
def resourceIntoNative : Resource → Nat
  | Resource.resourceCoreFileSize => RLIMIT_CORE
  | Resource.resourceCPUTime => RLIMIT_CPU
  | Resource.resourceDataSize => RLIMIT_DATA
  | Resource.resourceFileSize => RLIMIT_FSIZE
  | Resource.resourceOpenFiles => RLIMIT_NOFILE
  | Resource.resourceStackSize => RLIMIT_STACK
  | Resource.resourceTotalMemory => RLIMIT_AS

/-- Translation of `impl From<libc::__rlimit_resource_t> for Resource` (lines 93-106): the
wildcard arm executes `panic!("Invalid resource type code")`, modelled as
`none`. -/
def resourceFromNative (r : Nat) : Option Resource :=
  if r = RLIMIT_CORE then some Resource.resourceCoreFileSize
  else if r = RLIMIT_CPU then some Resource.resourceCPUTime
  else if r = RLIMIT_DATA then some Resource.resourceDataSize
  else if r = RLIMIT_FSIZE then some Resource.resourceFileSize
  else if r = RLIMIT_NOFILE then some Resource.resourceOpenFiles
  else if r = RLIMIT_STACK then some Resource.resourceStackSize
  else if r = RLIMIT_AS then some Resource.resourceTotalMemory
  else none

/-- The seven variants of `Resource`, in declaration order. -/
def Resource.all : List Resource :=
  [Resource.resourceCoreFileSize, Resource.resourceCPUTime,
   Resource.resourceDataSize, Resource.resourceFileSize,
   Resource.resourceOpenFiles, Resource.resourceStackSize,
   Resource.resourceTotalMemory]

/-- Rust `pub enum GetRLimitError` (lines 109-117). -/
inductive GetRLimitError where
  | Invalid
  | Permission
deriving DecidableEq

/-- Rust `pub enum SetRLimitError` (lines 145-148): the source declares ONLY the
`Invalid` variant; there is no `Permission` variant on the set side. -/
inductive SetRLimitError where
  | Invalid
deriving DecidableEq

/-- Outcome of running a fallible operation that may also `panic!`: `ok` and
`err` are the two sides of the Rust `Result`, `fatal` is a `panic!` with its
message (abrupt termination, not a returned value). -/
inductive ProgResult (ε α : Type) where
  | ok (a : α)
  | err (e : ε)
  | fatal (msg : String)
deriving DecidableEq

/-- Translation of `pub fn get_resource_limit` (lines 123-142).  The OS behaviour is passed
in as `os`, mapping the native resource identifier the code supplies to the
syscall's return code, the errno observed immediately after, and the `rlimit`
record written by the kernel.  The body mirrors the source: return code `0` →
`Ok(rlimit.into())`; `-1` → match errno with `EINVAL => Invalid`,
`EPERM => Permission`, otherwise `panic!("Invalid error code")`; any other
return code → `panic!("Invalid error return")`. -/
def get_resource_limit (os : Nat → Int × Int × rlimit) (resource : Resource) :
    ProgResult GetRLimitError ResourceLimits :=
  match os (resourceIntoNative resource) with
  | (ret, errno, out) =>
    if ret = 0 then
      ProgResult.ok (resourceLimitsFrom out)
    else if ret = -1 then
      if errno = EINVAL then ProgResult.err GetRLimitError.Invalid
      else if errno = EPERM then ProgResult.err GetRLimitError.Permission
      else ProgResult.fatal "Invalid error code"
    else
      ProgResult.fatal "Invalid error return"

/-- Translation of `pub fn set_resource_limit` (lines 153-169).  The OS behaviour is passed
in as `os`, mapping the native resource identifier and the raw limit record
the code supplies to the syscall's return code and the errno observed
immediately after.  The body mirrors the source: `0` → `Ok(())`; `-1` → match
errno with `EINVAL => Invalid`, otherwise `panic!("Invalid error code")`
(there is NO `EPERM` arm); any other return code →
`panic!("Invalid error return")`. -/
def set_resource_limit (os : Nat → rlimit → Int × Int) (resource : Resource)
    (r_limit : ResourceLimits) : ProgResult SetRLimitError Unit :=
  match os (resourceIntoNative resource) (resourceLimitsInto r_limit) with
  | (ret, errno) =>
    if ret = 0 then
      ProgResult.ok ()
    else if ret = -1 then
      if errno = EINVAL then ProgResult.err SetRLimitError.Invalid
      else ProgResult.fatal "Invalid error code"
    else
      ProgResult.fatal "Invalid error return"

/-- Structural equality on `ResourceLimit` as generated by the source's
`#[derive(PartialEq)]` (line 3): same variant, and equal payloads. -/
def rlBeq : ResourceLimit → ResourceLimit → Bool
  | ResourceLimit.resourceLimitInfinity, ResourceLimit.resourceLimitInfinity => true
  | ResourceLimit.resourceLimitUnknown, ResourceLimit.resourceLimitUnknown => true
  | ResourceLimit.resourceLimit a, ResourceLimit.resourceLimit b => a == b
  | _, _ => false

/-- Three-way comparison on `ResourceLimit` as generated by the source's
`#[derive(PartialOrd, Ord)]` (line 3): variants in declaration order
(Infinity, Unknown, Concrete), payloads compared numerically as `u64`. -/
def rlCompare : ResourceLimit → ResourceLimit → Ordering
  | ResourceLimit.resourceLimitInfinity, ResourceLimit.resourceLimitInfinity => Ordering.eq
  | ResourceLimit.resourceLimitInfinity, _ => Ordering.lt
  | ResourceLimit.resourceLimitUnknown, ResourceLimit.resourceLimitInfinity => Ordering.gt
  | ResourceLimit.resourceLimitUnknown, ResourceLimit.resourceLimitUnknown => Ordering.eq
  | ResourceLimit.resourceLimitUnknown, ResourceLimit.resourceLimit _ => Ordering.lt
  | ResourceLimit.resourceLimit _, ResourceLimit.resourceLimitInfinity => Ordering.gt
  | ResourceLimit.resourceLimit _, ResourceLimit.resourceLimitUnknown => Ordering.gt
  | ResourceLimit.resourceLimit a, ResourceLimit.resourceLimit b =>
      if a < b then Ordering.lt else if b < a then Ordering.gt else Ordering.eq

/-- Structural equality on `ResourceLimits` as generated by the source's
`#[derive(PartialEq)]` (line 10): field-by-field. -/
def rsBeq (p q : ResourceLimits) : Bool :=
  rlBeq p.soft_limit q.soft_limit && rlBeq p.hard_limit q.hard_limit

/-- Three-way comparison on `ResourceLimits` as generated by the source's
`#[derive(PartialOrd, Ord)]` (line 10): lexicographic in field declaration
order (`soft_limit` first, then `hard_limit`). -/
def rsCompare (p q : ResourceLimits) : Ordering :=
  match rlCompare p.soft_limit q.soft_limit with
  | Ordering.eq => rlCompare p.hard_limit q.hard_limit
  | o => o

/-- Structural equality on `GetRLimitError` as generated by the source's
`#[derive(PartialEq)]` (line 108). -/
def geBeq : GetRLimitError → GetRLimitError → Bool
  | GetRLimitError.Invalid, GetRLimitError.Invalid => true
  | GetRLimitError.Permission, GetRLimitError.Permission => true
  | _, _ => false

/-- Three-way comparison on `GetRLimitError` as generated by the source's
`#[derive(PartialOrd, Ord)]` (line 108): Invalid before Permission. -/
def geCompare : GetRLimitError → GetRLimitError → Ordering
  | GetRLimitError.Invalid, GetRLimitError.Invalid => Ordering.eq
  | GetRLimitError.Invalid, GetRLimitError.Permission => Ordering.lt
  | GetRLimitError.Permission, GetRLimitError.Invalid => Ordering.gt
  | GetRLimitError.Permission, GetRLimitError.Permission => Ordering.eq

/-- Structural equality on `SetRLimitError` as generated by the source's
`#[derive(PartialEq)]` (line 144). -/
def seBeq : SetRLimitError → SetRLimitError → Bool
  | SetRLimitError.Invalid, SetRLimitError.Invalid => true

/-- Three-way comparison on `SetRLimitError` as generated by the source's
`#[derive(PartialOrd, Ord)]` (line 144). -/
def seCompare : SetRLimitError → SetRLimitError → Ordering
  | SetRLimitError.Invalid, SetRLimitError.Invalid => Ordering.eq

/-- Derive attribute on `ResourceLimit` (line 3), transcribed from the source. -/
def resourceLimitDerives : List String :=
  ["Copy", "Clone", "Debug", "PartialEq", "Eq", "Ord", "PartialOrd", "Hash"]

/-- Derive attribute on `ResourceLimits` (line 10), transcribed from the source. -/
def resourceLimitsDerives : List String :=
  ["Copy", "Clone", "Debug", "PartialEq", "Eq", "Ord", "PartialOrd", "Hash"]

/-- Derive attribute on `Resource` (lines 69-77), transcribed from the source:
the enum declaration carries NO derive attribute at all. -/
def resourceDerives : List String := []

/-- Derive attribute on `GetRLimitError` (line 108), transcribed from the source. -/
def getRLimitErrorDerives : List String :=
  ["Copy", "Clone", "Debug", "PartialEq", "Eq", "Ord", "PartialOrd", "Hash"]

/-- Derive attribute on `SetRLimitError` (line 144), transcribed from the source. -/
def setRLimitErrorDerives : List String :=
  ["Copy", "Clone", "Debug", "PartialEq", "Eq", "Ord", "PartialOrd", "Hash"]

/-! ## Helper lemmas -/

lemma rlBeq_eq_iff (a b : ResourceLimit) : rlBeq a b = true ↔ a = b := by
  cases a <;> cases b <;> simp [rlBeq]

lemma rsBeq_eq_iff (p q : ResourceLimits) : rsBeq p q = true ↔ p = q := by
  obtain ⟨ps, ph⟩ := p
  obtain ⟨qs, qh⟩ := q
  simp [rsBeq, rlBeq_eq_iff, ResourceLimits.mk.injEq]

lemma geBeq_eq_iff (a b : GetRLimitError) : geBeq a b = true ↔ a = b := by
  cases a <;> cases b <;> simp [geBeq]

lemma seBeq_eq_iff (a b : SetRLimitError) : seBeq a b = true ↔ a = b := by
  cases a <;> cases b <;> simp [seBeq]

lemma rlCompare_eq_iff (a b : ResourceLimit) : rlCompare a b = Ordering.eq ↔ a = b := by
  cases a <;> cases b <;> simp [rlCompare] <;> omega

lemma rlCompare_self (a : ResourceLimit) : rlCompare a a = Ordering.eq :=
  (rlCompare_eq_iff a a).mpr rfl

lemma rlCompare_lt_iff_gt (a b : ResourceLimit) :
    rlCompare a b = Ordering.lt ↔ rlCompare b a = Ordering.gt := by
  cases a <;> cases b <;> simp [rlCompare] <;> omega

lemma rsCompare_eq_iff (p q : ResourceLimits) : rsCompare p q = Ordering.eq ↔ p = q := by
  obtain ⟨ps, ph⟩ := p
  obtain ⟨qs, qh⟩ := q
  rcases hs : rlCompare ps qs with _ | _ | _
  · have hne : ps ≠ qs := by
      intro e
      subst e
      rw [rlCompare_self] at hs
      cases hs
    simp [rsCompare, hs, hne, ResourceLimits.mk.injEq]
  · obtain rfl : ps = qs := (rlCompare_eq_iff ps qs).mp hs
    simp [rsCompare, hs, rlCompare_eq_iff, ResourceLimits.mk.injEq]
  · have hne : ps ≠ qs := by
      intro e
      subst e
      rw [rlCompare_self] at hs
      cases hs
    simp [rsCompare, hs, hne, ResourceLimits.mk.injEq]

lemma limitFromRaw_inf_actual :
    limitFromRaw RLIM_INFINITY RLIM_SAVED_MAX RLIM_SAVED_CUR RLIM_INFINITY
      = ResourceLimit.resourceLimitInfinity := by
  simp [limitFromRaw]

lemma limitFromRaw_concrete_actual (n : Nat) (h : n ≠ RLIM_INFINITY) :
    limitFromRaw RLIM_INFINITY RLIM_SAVED_MAX RLIM_SAVED_CUR n
      = ResourceLimit.resourceLimit n := by
  simp [limitFromRaw, RLIM_SAVED_MAX, RLIM_SAVED_CUR, h]

/-! ## Claim theorems -/

/-- C1 (counterexample): a query failing with errno `EPERM` — not `EINVAL` —
returns the typed error value `GetRLimitError.Permission` rather than
aborting, refuting the claim that every non-`EINVAL` failure of
`get_resource_limit` is a fatal contract violation and that `Invalid` is the
only typed query error. -/
theorem get_query_eperm_typed_error :
    get_resource_limit (fun _ => (-1, EPERM, ⟨0, 0⟩)) Resource.resourceOpenFiles
      = ProgResult.err GetRLimitError.Permission := by
  decide

/-- C1 (amended): a failing `get_resource_limit` call maps errno `EINVAL` to
the typed error `Invalid`, errno `EPERM` to the typed error `Permission`, and
every other errno to a fatal panic. -/
theorem get_failure_mapping :
    ∀ (errno : Int) (out : rlimit) (k : Resource),
      get_resource_limit (fun _ => (-1, errno, out)) k =
        if errno = EINVAL then ProgResult.err GetRLimitError.Invalid
        else if errno = EPERM then ProgResult.err GetRLimitError.Permission
        else ProgResult.fatal "Invalid error code" := by
  intro errno out k
  simp [get_resource_limit]

/-- C2 (code evaluated at the failing input): when `setrlimit` fails with
errno `EPERM` (the unprivileged hard-limit raise), `set_resource_limit`
panics with "Invalid error code" instead of returning a typed `Permission`
error — no such variant even exists in `SetRLimitError`; the `EINVAL` half of
the claim does hold: it returns `SetRLimitError.Invalid`. -/
theorem set_eperm_fatal_einval_invalid :
    set_resource_limit (fun _ _ => (-1, EPERM)) Resource.resourceOpenFiles
        ⟨ResourceLimit.resourceLimit 256, ResourceLimit.resourceLimit 4096⟩
      = ProgResult.fatal "Invalid error code"
    ∧ set_resource_limit (fun _ _ => (-1, EINVAL)) Resource.resourceOpenFiles
        ⟨ResourceLimit.resourceLimit 100, ResourceLimit.resourceLimit 10⟩
      = ProgResult.err SetRLimitError.Invalid := by
  exact ⟨by decide, by decide⟩

/-- C3 (counterexample): on this platform the saved-current/saved-maximum
sentinels equal `RLIM_INFINITY`, so an `Unknown` pair does NOT round-trip:
`from_raw(to_raw(Unknown)) = Unbounded ≠ Unknown`, refuting
`from_raw(to_raw(v)) == v` for all `v`. -/
theorem unknown_roundtrip_breaks :
    resourceLimitsFrom (resourceLimitsInto
        ⟨ResourceLimit.resourceLimitUnknown, ResourceLimit.resourceLimitUnknown⟩)
      ≠ ⟨ResourceLimit.resourceLimitUnknown, ResourceLimit.resourceLimitUnknown⟩
    ∧ resourceLimitsFrom (resourceLimitsInto
        ⟨ResourceLimit.resourceLimitUnknown, ResourceLimit.resourceLimitUnknown⟩)
      = ⟨ResourceLimit.resourceLimitInfinity, ResourceLimit.resourceLimitInfinity⟩ := by
  decide

/-- C3 (amended): `from_raw(to_raw(v)) == v` holds for each side of the pair
whenever that side is not `Unknown` and, if it is `Concrete(n)`, `n` is not
equal to any platform sentinel; the excluded `Unknown` sides read back as
`Unbounded` on this platform because both unknown sentinels collide with the
unbounded sentinel. -/
theorem limits_roundtrip_amended (p : ResourceLimits)
    (hs : p.soft_limit ≠ ResourceLimit.resourceLimitUnknown)
    (hh : p.hard_limit ≠ ResourceLimit.resourceLimitUnknown)
    (hsn : ∀ n, p.soft_limit = ResourceLimit.resourceLimit n →
      n ≠ RLIM_INFINITY ∧ n ≠ RLIM_SAVED_MAX ∧ n ≠ RLIM_SAVED_CUR)
    (hhn : ∀ n, p.hard_limit = ResourceLimit.resourceLimit n →
      n ≠ RLIM_INFINITY ∧ n ≠ RLIM_SAVED_MAX ∧ n ≠ RLIM_SAVED_CUR) :
    resourceLimitsFrom (resourceLimitsInto p) = p := by
  obtain ⟨s, h⟩ := p
  simp only [resourceLimitsInto, resourceLimitsFrom, ResourceLimits.mk.injEq]
  constructor
  · cases s with
    | resourceLimitInfinity => simpa [limitToRaw] using limitFromRaw_inf_actual
    | resourceLimitUnknown => exact absurd rfl hs
    | resourceLimit n =>
        simpa [limitToRaw] using limitFromRaw_concrete_actual n (hsn n rfl).1
  · cases h with
    | resourceLimitInfinity => simpa [limitToRaw] using limitFromRaw_inf_actual
    | resourceLimitUnknown => exact absurd rfl hh
    | resourceLimit n =>
        simpa [limitToRaw] using limitFromRaw_concrete_actual n (hhn n rfl).1

/-- Witness for the amended C3 round-trip at the concrete pair
(Concrete 7, Unbounded). -/
theorem limits_roundtrip_amended_witness :
    resourceLimitsFrom (resourceLimitsInto
        ⟨ResourceLimit.resourceLimit 7, ResourceLimit.resourceLimitInfinity⟩)
      = ⟨ResourceLimit.resourceLimit 7, ResourceLimit.resourceLimitInfinity⟩ :=
  limits_roundtrip_amended
    ⟨ResourceLimit.resourceLimit 7, ResourceLimit.resourceLimitInfinity⟩
    (by decide) (by decide)
    (by
      intro n hn
      injection hn with hn
      subst hn
      decide)
    (by
      intro n hn
      cases hn)

/-- C4: the source's `from_raw` decision chain coincides, for every choice of
platform sentinels and every raw value, with the spec's stated order
(unbounded sentinel first, then saved-maximum if distinct, then saved-current
if distinct, else Concrete); in particular a raw value equal to a colliding
unknown sentinel (one equal to the unbounded sentinel) converts to Unbounded,
never Unknown. -/
theorem from_raw_decision_order :
    (∀ inf smax scur raw,
      limitFromRaw inf smax scur raw = limitFromRawSpec inf smax scur raw)
    ∧ (∀ inf scur, limitFromRaw inf inf scur inf = ResourceLimit.resourceLimitInfinity)
    ∧ (∀ inf smax, limitFromRaw inf smax inf inf = ResourceLimit.resourceLimitInfinity) := by
  refine ⟨fun inf smax scur raw => ?_, fun inf scur => ?_, fun inf smax => ?_⟩
  · unfold limitFromRaw limitFromRawSpec
    split_ifs <;> first | rfl | tauto
  · simp [limitFromRaw]
  · simp [limitFromRaw]

/-- C5: the semantic-to-raw conversion of a pair encodes the soft side with
Unbounded ↦ `RLIM_INFINITY`, Unknown ↦ `RLIM_SAVED_CUR`, Concrete(n) ↦ n, and
the hard side with Unbounded ↦ `RLIM_INFINITY`, Unknown ↦ `RLIM_SAVED_MAX`,
Concrete(n) ↦ n, exactly as the spec states. -/
theorem into_raw_encoding :
    ∀ soft hard : ResourceLimit,
      resourceLimitsInto ⟨soft, hard⟩
        = ⟨limitToRawSpecSoft soft, limitToRawSpecHard hard⟩ := by
  intro s h
  cases s <;> cases h <;> rfl

/-- C6: for every platform assignment of the three sentinels and every `n`
distinct from all of them, `Concrete(n)` round-trips through the raw encoding
on both the soft and the hard side; and `Unbounded` round-trips on both sides
unconditionally, for every platform assignment. -/
theorem concrete_and_unbounded_roundtrip :
    ∀ inf smax scur : Nat,
      (∀ n, n ≠ inf → n ≠ smax → n ≠ scur →
        limitFromRaw inf smax scur (limitToRaw inf scur (ResourceLimit.resourceLimit n))
            = ResourceLimit.resourceLimit n
        ∧ limitFromRaw inf smax scur (limitToRaw inf smax (ResourceLimit.resourceLimit n))
            = ResourceLimit.resourceLimit n)
      ∧ limitFromRaw inf smax scur (limitToRaw inf scur ResourceLimit.resourceLimitInfinity)
          = ResourceLimit.resourceLimitInfinity
      ∧ limitFromRaw inf smax scur (limitToRaw inf smax ResourceLimit.resourceLimitInfinity)
          = ResourceLimit.resourceLimitInfinity := by
  intro inf smax scur
  refine ⟨fun n h1 h2 h3 => ?_, ?_, ?_⟩
  · constructor <;> simp [limitFromRaw, limitToRaw, h1, h2, h3]
  · simp [limitFromRaw, limitToRaw]
  · simp [limitFromRaw, limitToRaw]

/-- Witness for C6 at the actual platform sentinels and n = 42. -/
theorem concrete_and_unbounded_roundtrip_witness :
    limitFromRaw RLIM_INFINITY RLIM_SAVED_MAX RLIM_SAVED_CUR
        (limitToRaw RLIM_INFINITY RLIM_SAVED_CUR (ResourceLimit.resourceLimit 42))
      = ResourceLimit.resourceLimit 42 :=
  ((concrete_and_unbounded_roundtrip RLIM_INFINITY RLIM_SAVED_MAX RLIM_SAVED_CUR).1
    42 (by decide) (by decide) (by decide)).1

/-- C7: mapping each of the seven resource kinds to its native identifier and
back yields the same kind, and the seven native identifiers are pairwise
distinct, so the kind-to-native mapping is total and injective. -/
theorem resource_native_roundtrip_and_injective :
    (∀ k : Resource, resourceFromNative (resourceIntoNative k) = some k)
    ∧ (Resource.all.map resourceIntoNative).Nodup := by
  constructor
  · intro k
    cases k <;> decide
  · decide

/-- C8 (counterexample): the resource-kind enumeration `Resource` carries no
derive attribute in the source, so it has neither structural equality nor an
order — refuting the claim that all five public types do. -/
theorem resource_kind_enum_derives_no_eq_or_ord :
    "PartialEq" ∉ resourceDerives ∧ "Eq" ∉ resourceDerives
    ∧ "PartialOrd" ∉ resourceDerives ∧ "Ord" ∉ resourceDerives := by
  decide

/-- C8 (amended): four of the five public types — the limit value, the limit
pair, the query error and the set error, but not the resource-kind
enumeration — have structural field-by-field equality and a three-way total
comparison (derived `PartialEq`/`Eq`/`PartialOrd`/`Ord`): equality tests and
`eq` comparisons hold exactly on identical values, `lt` and `gt` are mirror
images, and `Concrete(5) < Concrete(10)`. -/
theorem structural_eq_ord_on_value_and_error_types :
    (∀ a b : ResourceLimit, rlBeq a b = true ↔ a = b)
    ∧ (∀ p q : ResourceLimits, rsBeq p q = true ↔ p = q)
    ∧ (∀ a b : GetRLimitError, geBeq a b = true ↔ a = b)
    ∧ (∀ a b : SetRLimitError, seBeq a b = true ↔ a = b)
    ∧ (∀ a b : ResourceLimit, rlCompare a b = Ordering.eq ↔ a = b)
    ∧ (∀ p q : ResourceLimits, rsCompare p q = Ordering.eq ↔ p = q)
    ∧ (∀ a b : ResourceLimit, rlCompare a b = Ordering.lt ↔ rlCompare b a = Ordering.gt)
    ∧ rlCompare (ResourceLimit.resourceLimit 5) (ResourceLimit.resourceLimit 10)
        = Ordering.lt
    ∧ "PartialEq" ∈ resourceLimitDerives ∧ "Ord" ∈ resourceLimitDerives
    ∧ "PartialEq" ∈ resourceLimitsDerives ∧ "Ord" ∈ resourceLimitsDerives
    ∧ "PartialEq" ∈ getRLimitErrorDerives ∧ "Ord" ∈ getRLimitErrorDerives
    ∧ "PartialEq" ∈ setRLimitErrorDerives ∧ "Ord" ∈ setRLimitErrorDerives :=
  ⟨rlBeq_eq_iff, rsBeq_eq_iff, geBeq_eq_iff, seBeq_eq_iff, rlCompare_eq_iff,
   rsCompare_eq_iff, rlCompare_lt_iff_gt, by decide, by decide, by decide,
   by decide, by decide, by decide, by decide, by decide, by decide⟩

/-- C9: `resourceFromNative` succeeds exactly on the seven native identifiers
in the image of `resourceIntoNative`; on every other input it takes the fatal
panic branch (modelled as `none`), and an input obtained from
`resourceIntoNative` never reaches that branch. -/
theorem from_native_defined_exactly_on_native_image :
    ∀ r : Nat, (resourceFromNative r).isSome = true ↔ ∃ k, resourceIntoNative k = r := by
  intro r
  constructor
  · unfold resourceFromNative
    split_ifs with h1 h2 h3 h4 h5 h6 h7 <;> intro hh
    · exact ⟨Resource.resourceCoreFileSize, h1.symm⟩
    · exact ⟨Resource.resourceCPUTime, h2.symm⟩
    · exact ⟨Resource.resourceDataSize, h3.symm⟩
    · exact ⟨Resource.resourceFileSize, h4.symm⟩
    · exact ⟨Resource.resourceOpenFiles, h5.symm⟩
    · exact ⟨Resource.resourceStackSize, h6.symm⟩
    · exact ⟨Resource.resourceTotalMemory, h7.symm⟩
    · simp at hh
  · rintro ⟨k, rfl⟩
    cases k <;> decide

/-- C10: under the derived comparison on the limit-value type, the variant
order is Unbounded < Unknown < Concrete(n) for every n: the order is
structural by variant position, with the infinite ceiling below every
concrete ceiling. -/
theorem limit_value_variant_order :
    ∀ n : Nat,
      rlCompare ResourceLimit.resourceLimitInfinity ResourceLimit.resourceLimitUnknown
          = Ordering.lt
      ∧ rlCompare ResourceLimit.resourceLimitUnknown (ResourceLimit.resourceLimit n)
          = Ordering.lt
      ∧ rlCompare ResourceLimit.resourceLimitInfinity (ResourceLimit.resourceLimit n)
          = Ordering.lt :=
  fun _ => ⟨rfl, rfl, rfl⟩

end PosixResources
